import Mathlib

/-!
Shallow embedding of the metric computations of src/app.py (the Bitcoin
metrics dashboard).  Numeric values (Python ints and floats) are modelled as
exact integers and rationals; the string sentinel "N/A" used throughout the
source is modelled as `none` of an `Option` type.  Timestamps are modelled as
integers counting days, so a timedelta of 7 days is the constant `7`.
-/

/-- Embeds `calculate_issuance_per_block` (src/app.py lines 75-84): an
unavailable height returns `0`; otherwise the code computes
`3.125 * 2 ** (-math.floor(current_block_height / 210000 - 4))`. -/
def calculate_issuance_per_block : Option ℤ → ℚ
  | none => 0
  | some h => 3.125 * (2 : ℚ) ^ (-⌊(h : ℚ) / 210000 - 4⌋)

/-- Embeds the rolling-mean step of `get_onchain_volume_mas`
(src/app.py line 95): the 7-wide rolling mean of the y column followed by
`dropna()` yields, for a series of `n` observations, the `n - 6` (truncated
at zero) means of the consecutive 7-element windows, in chronological
order. -/
def rolling7 (ys : List ℚ) : List ℚ :=
  (List.range (ys.length - 6)).map (fun i => ((ys.drop i).take 7).sum / 7)

/-- Embeds `get_onchain_volume_mas` (src/app.py lines 86-100): when at least
two valid window means exist the code returns the last two
(`iloc[-1]` and `iloc[-2]` of the dropna result); otherwise it falls through
to the pair of "N/A" sentinels. -/
def get_onchain_volume_mas (ys : List ℚ) : Option ℚ × Option ℚ :=
  let mas := rolling7 ys
  if 2 ≤ mas.length then (mas.reverse.get? 0, mas.reverse.get? 1)
  else (none, none)

/-- One row of the institutional-holdings CSV after the per-row sum over the
six category columns: `ts` is the row timestamp (in days) and `total` the
value of the row sum over `columns_to_sum` (src/app.py lines 110-117). -/
structure Row where
  ts : ℤ
  total : ℚ
deriving DecidableEq

/-- Embeds the descending sort by timestamp of src/app.py line 109. -/
def sortDesc (rows : List Row) : List Row :=
  List.insertionSort (fun a b => b.ts ≤ a.ts) rows

/-- Embeds `get_institutional_btcs` (src/app.py lines 102-133): rows are
sorted by decreasing timestamp; the first sorted row gives `latest_total`;
`idxmin` over the `time_diff` column picks the first row (in the sorted
order) minimising the absolute distance of its timestamp from
`latest_timestamp` minus 7 days, and that row gives `week_ago_total`.
`List.argmin` keeps the earliest element on ties, exactly as pandas
`idxmin` does. -/
def get_institutional_btcs (rows : List Row) : Option ℚ × Option ℚ :=
  match sortDesc rows with
  | [] => (none, none)
  | r0 :: rest =>
    match (r0 :: rest).argmin (fun x => |x.ts - (r0.ts - 7)|) with
    | some rmin => (some r0.total, some rmin.total)
    | none => (some r0.total, none)

/-- Embeds the supply-growth computation (src/app.py lines 238-258): when
both heights are available the code computes
`blocks_mined * calculate_issuance_per_block(current_height) / 7`; when
either height is unavailable the delta stays `None`.  The numeric value
before string formatting is modelled. -/
def supply_increase_delta (block_height block_height_7d_ago : Option ℤ) : Option ℚ :=
  match block_height, block_height_7d_ago with
  | some cur, some prior =>
      some (((cur - prior : ℤ) : ℚ) * calculate_issuance_per_block (some cur) / 7)
  | _, _ => none

/-- Embeds the difficulty tile computation (src/app.py lines 206-226): the
adjustment payload is a list of records; with a first record of at least 4
fields the code computes `difficulty / 10**12` (field 2) and
`(change_factor - 1) * 100` (field 3); otherwise the tile shows "N/A". -/
def difficulty_change_percent (difficulty_data : Option (List (List ℚ))) : Option (ℚ × ℚ) :=
  match difficulty_data with
  | some (latest_adjustment :: _) =>
    if 4 ≤ latest_adjustment.length then
      some (latest_adjustment.getD 2 0 / 10 ^ 12, (latest_adjustment.getD 3 0 - 1) * 100)
    else none
  | _ => none

/-- Embeds the on-chain volume delta display (src/app.py lines 327-335): the
percentage `(latest_ma - prev_ma) / prev_ma * 100` is computed only when
`prev_ma` is available and strictly positive; otherwise the tile shows
"No Change" (modelled as `none`). -/
def volume_delta_percent (latest_ma prev_ma : Option ℚ) : Option ℚ :=
  match latest_ma, prev_ma with
  | some l, some p => if 0 < p then some ((l - p) / p * 100) else none
  | _, _ => none

/-- Embeds the institutional-holdings delta display (src/app.py lines
278-305): with `institutional_btc` available, `daily_avg_delta` starts at 0
and becomes `(institutional_btc - week_ago_institutional_btc) / 7` only when
the week-ago value is available and strictly positive; a zero delta renders
as "No Change". -/
def inst_daily_avg_delta (institutional_btc week_ago : Option ℚ) : Option ℚ :=
  match institutional_btc, week_ago with
  | some i, some w => if 0 < w then some ((i - w) / 7) else some 0
  | some _, none => some 0
  | none, _ => none

/-- Helper: the floor inside the issuance formula splits into a natural
division and the constant 4. -/
theorem floor_height_div (h : ℕ) :
    ⌊((h : ℤ) : ℚ) / 210000 - 4⌋ = ((h / 210000 : ℕ) : ℤ) - 4 := by
  have e1 : ((h : ℤ) : ℚ) / 210000 - 4 =
      ((h : ℤ) : ℚ) / ((210000 : ℕ) : ℚ) - ((4 : ℤ) : ℚ) := by norm_num
  rw [e1, Int.floor_sub_int, Rat.floor_intCast_div_natCast]
  norm_cast

/-- Helper: closed form of the issuance estimator at a natural height. -/
theorem issuance_closed_form (h : ℕ) :
    calculate_issuance_per_block (some (h : ℤ)) =
      3.125 * (2 : ℚ) ^ (-(((h / 210000 : ℕ) : ℤ) - 4)) := by
  simp only [calculate_issuance_per_block, floor_height_div]

/-- Helper: the issuance estimator is strictly positive on every available
height. -/
theorem issuance_pos (z : ℤ) : 0 < calculate_issuance_per_block (some z) := by
  simp only [calculate_issuance_per_block]
  have : (0 : ℚ) < (2 : ℚ) ^ (-⌊(z : ℚ) / 210000 - 4⌋) := zpow_pos (by norm_num) _
  nlinarith

/-- Helper: the number of valid 7-windows of a series of `n` observations is
`n - 6` (truncated at zero). -/
theorem rolling7_length (ys : List ℚ) : (rolling7 ys).length = ys.length - 6 := by
  simp [rolling7]

/-- C1: the spec claims that a negative `blocks_mined` yields Unavailable;
the code has no such guard: at current height 900 and prior height 1000 it
produces the negative growth value -5000/7, not the unavailable sentinel. -/
theorem c1_negative_growth_counterexample :
    supply_increase_delta (some 900) (some 1000) = some (-5000 / 7) ∧
    (some (-5000 / 7) : Option ℚ) ≠ none := by
  constructor
  · simp only [supply_increase_delta, calculate_issuance_per_block]
    norm_num
  · simp

/-- C1 (amended): for available heights with `current < prior` the
computation returns the value `(current - prior) * issuance(current) / 7`,
which is strictly negative — a negative growth number, not Unavailable. -/
theorem c1_negative_growth_amended (cur prior : ℤ) (h : cur < prior) :
    supply_increase_delta (some cur) (some prior) =
      some (((cur - prior : ℤ) : ℚ) * calculate_issuance_per_block (some cur) / 7) ∧
    ((cur - prior : ℤ) : ℚ) * calculate_issuance_per_block (some cur) / 7 < 0 := by
  refine ⟨rfl, ?_⟩
  have h1 : ((cur - prior : ℤ) : ℚ) < 0 := by
    rw [Int.cast_lt_zero]
    omega
  have h3 : ((cur - prior : ℤ) : ℚ) * calculate_issuance_per_block (some cur) < 0 :=
    mul_neg_of_neg_of_pos h1 (issuance_pos cur)
  exact div_neg_of_neg_of_pos h3 (by norm_num)

/-- C1 witness: the amended statement instantiated at heights 900 and
1000. -/
theorem c1_negative_growth_amended_witness :
    supply_increase_delta (some 900) (some 1000) =
      some (((900 - 1000 : ℤ) : ℚ) * calculate_issuance_per_block (some 900) / 7) ∧
    ((900 - 1000 : ℤ) : ℚ) * calculate_issuance_per_block (some 900) / 7 < 0 :=
  c1_negative_growth_amended 900 1000 (by norm_num)

/-- C2: the spec claims a single-entry series yields
`previous_total = Unavailable`; the code instead selects the only row as the
closest one, so `previous_total` equals the single total. -/
theorem c2_single_entry_counterexample :
    get_institutional_btcs [⟨0, 100⟩] = (some 100, some 100) ∧
    (get_institutional_btcs [⟨0, 100⟩]).2 ≠ none := by decide

/-- C2 (amended): for every single-entry series the calculator returns the
entry total both as `latest_total` and as `previous_total`. -/
theorem c2_single_entry_amended (r : Row) :
    get_institutional_btcs [r] = (some r.total, some r.total) := by
  have hsort : sortDesc [r] = [r] := rfl
  simp only [get_institutional_btcs, hsort, List.argmin_singleton]

/-- C2 witness: the amended statement instantiated at a concrete row. -/
theorem c2_single_entry_amended_witness :
    get_institutional_btcs [⟨3, 42⟩] = (some 42, some 42) :=
  c2_single_entry_amended ⟨3, 42⟩

/-- C3: the spec claims that with exactly one valid 7-window the calculator
returns that window mean as `latest`; the code requires at least two window
means and otherwise returns the unavailable sentinel for both, so a
7-observation constant series yields `(none, none)` and not
`(some 1, none)`. -/
theorem c3_single_window_counterexample :
    get_onchain_volume_mas [1, 1, 1, 1, 1, 1, 1] = (none, none) ∧
    get_onchain_volume_mas [1, 1, 1, 1, 1, 1, 1] ≠ (some 1, none) := by decide

/-- C3 (amended): whenever at most one valid 7-window exists — in particular
for exactly one window (exactly 7 observations) as well as for zero windows
— the calculator returns Unavailable for both values. -/
theorem c3_single_window_amended (ys : List ℚ) (h : (rolling7 ys).length ≤ 1) :
    get_onchain_volume_mas ys = (none, none) := by
  simp only [get_onchain_volume_mas]
  rw [if_neg (by omega)]

/-- C3 witness: the amended statement at a concrete 7-observation series,
which has exactly one valid window. -/
theorem c3_single_window_amended_witness :
    get_onchain_volume_mas [2, 2, 2, 2, 2, 2, 2] = (none, none) :=
  c3_single_window_amended [2, 2, 2, 2, 2, 2, 2] (by decide)

/-- C4: the issuance estimator equals
`3.125 * 2 ^ (-(height / 210000 - 4))` at every natural height; the value at
209999 is exactly twice the value at 210000; issuance is constant on each
block of 210000 heights and halves exactly at each multiple of 210000. -/
theorem c4_issuance_halving_formula :
    (∀ h : ℕ, calculate_issuance_per_block (some (h : ℤ)) =
        3.125 * (2 : ℚ) ^ (-(((h / 210000 : ℕ) : ℤ) - 4))) ∧
    calculate_issuance_per_block (some 209999) =
      2 * calculate_issuance_per_block (some 210000) ∧
    (∀ h : ℕ, calculate_issuance_per_block (some (h : ℤ)) =
        calculate_issuance_per_block (some ((210000 * (h / 210000) : ℕ) : ℤ))) ∧
    ∀ k : ℕ, calculate_issuance_per_block (some ((210000 * (k + 1) : ℕ) : ℤ)) =
        calculate_issuance_per_block (some ((210000 * k : ℕ) : ℤ)) / 2 := by
  refine ⟨issuance_closed_form, ?_, ?_, ?_⟩
  · simp only [calculate_issuance_per_block]
    norm_num
  · intro h
    rw [issuance_closed_form, issuance_closed_form,
      Nat.mul_div_cancel_left _ (by norm_num)]
  · intro k
    rw [issuance_closed_form, issuance_closed_form,
      Nat.mul_div_cancel_left _ (by norm_num), Nat.mul_div_cancel_left _ (by norm_num)]
    push_cast
    rw [show -((k : ℤ) + 1 - 4) = -((k : ℤ) - 4) - 1 by ring, zpow_sub_one₀ (by norm_num)]
    ring

/-- C4 witness: the closed form instantiated at height 900. -/
theorem c4_issuance_halving_formula_witness :
    calculate_issuance_per_block (some ((900 : ℕ) : ℤ)) =
      3.125 * (2 : ℚ) ^ (-(((900 / 210000 : ℕ) : ℤ) - 4)) :=
  c4_issuance_halving_formula.1 900

/-- C5: for a series of at least two entries, the holdings calculator
returns as `previous_total` the total of an entry of the sorted series that
minimises the absolute distance of its timestamp from the latest timestamp
minus 7 days, ties resolved by the first-encountered entry in iteration
order; the example series (day 0, 100), (day 7, 150), (day 14, 200) yields
the pair (200, 150). -/
theorem c5_holdings_closest_entry (rows : List Row) (r0 : Row) (rest : List Row)
    (hs : sortDesc rows = r0 :: rest) (hlen : 2 ≤ rows.length) :
    (∃ m ∈ sortDesc rows,
        (get_institutional_btcs rows).2 = some m.total ∧
        (∀ x ∈ sortDesc rows, |m.ts - (r0.ts - 7)| ≤ |x.ts - (r0.ts - 7)|) ∧
        ∀ x ∈ sortDesc rows, |x.ts - (r0.ts - 7)| = |m.ts - (r0.ts - 7)| →
          (sortDesc rows).indexOf m ≤ (sortDesc rows).indexOf x) ∧
    get_institutional_btcs [⟨0, 100⟩, ⟨7, 150⟩, ⟨14, 200⟩] = (some 200, some 150) := by
  constructor
  · have hne : (r0 :: rest).argmin (fun x => |x.ts - (r0.ts - 7)|) ≠ none := by
      simp [List.argmin_eq_none]
    cases harg : (r0 :: rest).argmin (fun x => |x.ts - (r0.ts - 7)|) with
    | none => exact absurd harg hne
    | some m =>
      have hout : (get_institutional_btcs rows).2 = some m.total := by
        simp only [get_institutional_btcs, hs, harg]
      rw [List.argmin_eq_some_iff] at harg
      obtain ⟨hmem, hmin, hfirst⟩ := harg
      refine ⟨m, ?_, hout, ?_, ?_⟩
      · rw [hs]; exact hmem
      · intro x hx
        rw [hs] at hx
        exact hmin x hx
      · intro x hx heq
        rw [hs] at hx ⊢
        exact hfirst x hx (le_of_eq heq)
  · decide

/-- C5 witness: the example of the spec, the series (day 0, 100),
(day 7, 150), (day 14, 200), returns latest 200 and previous 150. -/
theorem c5_holdings_closest_entry_witness :
    get_institutional_btcs [⟨0, 100⟩, ⟨7, 150⟩, ⟨14, 200⟩] = (some 200, some 150) :=
  (c5_holdings_closest_entry [⟨0, 100⟩, ⟨7, 150⟩, ⟨14, 200⟩] ⟨14, 200⟩
    [⟨7, 150⟩, ⟨0, 100⟩] (by decide) (by norm_num)).2

/-- C6: for available natural heights with `prior ≤ current` the supply
computation returns
`(current - prior) * (3.125 * 2 ^ (-(current / 210000 - 4))) / 7`, and equal
heights yield growth `some 0`, not the unavailable sentinel. -/
theorem c6_supply_growth_computed (cur prior : ℕ) (h : prior ≤ cur) :
    supply_increase_delta (some (cur : ℤ)) (some (prior : ℤ)) =
      some (((cur : ℚ) - (prior : ℚ)) *
        (3.125 * (2 : ℚ) ^ (-(((cur / 210000 : ℕ) : ℤ) - 4))) / 7) ∧
    supply_increase_delta (some 1000) (some 1000) = some 0 := by
  constructor
  · simp only [supply_increase_delta, Option.some.injEq]
    rw [issuance_closed_form cur]
    push_cast
    ring
  · simp only [supply_increase_delta, calculate_issuance_per_block]
    norm_num

/-- C6 witness: equal heights 1000 and 1000 yield growth zero. -/
theorem c6_supply_growth_computed_witness :
    supply_increase_delta (some 1000) (some 1000) = some 0 :=
  (c6_supply_growth_computed 1000 1000 le_rfl).2

/-- C7: every volume series of fewer than 8 observations yields the
unavailable sentinel for both moving averages. -/
theorem c7_volume_short_series_unavailable (ys : List ℚ) (h : ys.length < 8) :
    get_onchain_volume_mas ys = (none, none) := by
  have hlen : (rolling7 ys).length < 2 := by rw [rolling7_length]; omega
  simp only [get_onchain_volume_mas]
  rw [if_neg (by omega)]

/-- C7 witness: a 3-observation series returns both values unavailable. -/
theorem c7_volume_short_series_unavailable_witness :
    get_onchain_volume_mas [1, 2, 3] = (none, none) :=
  c7_volume_short_series_unavailable [1, 2, 3] (by decide)

/-- C8: a present first adjustment record of at least 4 fields yields the
pair of difficulty divided by 10 to the 12 and the change factor minus one
times 100; an absent payload, an empty payload, or a record of fewer than 4
fields yields the unavailable sentinel; difficulty 10 to the 14 with change
factor 1.05 yields the pair (100, 5). -/
theorem c8_difficulty_extraction (fields short : List ℚ) (rows rows2 : List (List ℚ))
    (h : 4 ≤ fields.length) (h2 : short.length < 4) :
    difficulty_change_percent (some (fields :: rows)) =
        some (fields.getD 2 0 / 10 ^ 12, (fields.getD 3 0 - 1) * 100) ∧
    difficulty_change_percent (some (short :: rows2)) = none ∧
    difficulty_change_percent none = none ∧
    difficulty_change_percent (some []) = none ∧
    difficulty_change_percent (some [[0, 0, 10 ^ 14, 1.05]]) = some (100, 5) := by
  refine ⟨?_, ?_, rfl, rfl, ?_⟩
  · simp only [difficulty_change_percent]
    rw [if_pos h]
  · simp only [difficulty_change_percent]
    rw [if_neg (by omega)]
  · simp only [difficulty_change_percent]
    norm_num

/-- C8 witness: the statement instantiated at the spec example record and
an empty malformed record. -/
theorem c8_difficulty_extraction_witness :
    difficulty_change_percent (some ([0, 0, 10 ^ 14, 1.05] :: [])) =
        some (([0, 0, 10 ^ 14, 1.05] : List ℚ).getD 2 0 / 10 ^ 12,
          (([0, 0, 10 ^ 14, 1.05] : List ℚ).getD 3 0 - 1) * 100) ∧
    difficulty_change_percent (some (([] : List ℚ) :: [])) = none ∧
    difficulty_change_percent none = none ∧
    difficulty_change_percent (some []) = none ∧
    difficulty_change_percent (some [[0, 0, 10 ^ 14, 1.05]]) = some (100, 5) :=
  c8_difficulty_extraction [0, 0, 10 ^ 14, 1.05] [] [] [] (by decide) (by decide)

/-- C9: an unavailable upstream height makes the issuance estimator return
the sentinel value 0 instead of propagating unavailability. -/
theorem c9_issuance_unavailable_height_zero : calculate_issuance_per_block none = 0 := rfl

/-- C10: both delta displays guard their divisions: the volume percentage is
produced only when the previous moving average is available and strictly
positive (and then equals `(latest - previous) / previous * 100`), otherwise
the display falls back to "No Change"; the institutional daily delta divides
only by the constant 7 and is the zero fallback whenever the week-ago value
is unavailable or not strictly positive. -/
theorem c10_delta_division_guards (l p i w : ℚ) (hp : p ≤ 0) (hw : w ≤ 0) :
    volume_delta_percent (some l) (some p) = none ∧
    volume_delta_percent (some l) none = none ∧
    volume_delta_percent none (some p) = none ∧
    (∀ q r : ℚ, volume_delta_percent (some l) (some q) = some r →
      0 < q ∧ r = (l - q) / q * 100) ∧
    inst_daily_avg_delta (some i) (some w) = some 0 ∧
    inst_daily_avg_delta (some i) none = some 0 ∧
    (∀ q r : ℚ, inst_daily_avg_delta (some i) (some q) = some r →
      r = 0 ∨ (0 < q ∧ r = (i - q) / 7)) := by
  refine ⟨?_, rfl, rfl, ?_, ?_, rfl, ?_⟩
  · simp only [volume_delta_percent]
    rw [if_neg (not_lt.mpr hp)]
  · intro q r hqr
    by_cases hq : 0 < q
    · simp only [volume_delta_percent, if_pos hq, Option.some.injEq] at hqr
      exact ⟨hq, hqr.symm⟩
    · simp only [volume_delta_percent, if_neg hq] at hqr
      exact absurd hqr (by simp)
  · simp only [inst_daily_avg_delta]
    rw [if_neg (not_lt.mpr hw)]
  · intro q r hqr
    by_cases hq : 0 < q
    · simp only [inst_daily_avg_delta, if_pos hq, Option.some.injEq] at hqr
      exact Or.inr ⟨hq, hqr.symm⟩
    · simp only [inst_daily_avg_delta, if_neg hq, Option.some.injEq] at hqr
      exact Or.inl hqr.symm

/-- C10 witness: with a zero previous moving average the volume display
falls back, and with a zero week-ago total the institutional delta is the
zero fallback. -/
theorem c10_delta_division_guards_witness :
    volume_delta_percent (some 1) (some 0) = none ∧
    inst_daily_avg_delta (some 2) (some 0) = some 0 :=
  ⟨(c10_delta_division_guards 1 0 2 0 le_rfl le_rfl).1,
    (c10_delta_division_guards 1 0 2 0 le_rfl le_rfl).2.2.2.2.1⟩
